import Mathlib

/-!
Shallow embedding of the SQL-Server-to-BigQuery change-tracking replicator
(src/main.py, src/connector/replicator.py, src/connector/sql_server_connector.py,
src/connector/big_query_connector.py, src/connector/state_manager.py).

Modelling conventions:
* machine integers are `Nat`; change-tracking versions are `Nat` and the code's
  failure sentinel for a version query is the value `0`, exactly as in
  `SQLServerConnection.get_change_tracking_current_version`;
* rows are association lists from column name to integer value (only emptiness
  and length of row collections matter to the replicator's control flow);
* each external call that the Python code guards with try/except is modelled by
  a boolean failure flag in `Source` (source-database side) or `Env`
  (target/state side); the modelled function returns exactly what the Python
  except-branch returns (empty list, `False`, `0`, or a silent pass).
-/

namespace Repl

/-- A column descriptor as produced by `SQLServerConnection.get_table_schema`:
the returned dicts have keys name/type/is_nullable (plus length/precision/scale,
irrelevant to control flow).  The key `is_primary_key` is absent until
`Replicator.replicate_table` adds it, modelled by a field defaulting to
`false`. -/
structure Column where
  name : String
  type : String
  is_nullable : Bool
  is_primary_key : Bool := false
deriving DecidableEq, Repr

/-- A row: column name to value association list. -/
abbrev Row := List (String × Int)

/-- Snapshot of the source database for one table during one run, plus the
failure flags of the source-side queries (`execute_query` returns `[]` on
exception). -/
structure Source where
  /-- `is_change_tracking_enabled`: `false` also covers table-not-found and
  query failure, which return `False` in the Python code. -/
  ctEnabled : Bool
  /-- `get_table_schema` result; `[]` models both an empty result and the
  caught-exception path (the replicator treats `not schema` as failure). -/
  schema : List Column
  /-- `get_primary_key_columns` result, ordered by `ic.key_ordinal`; `[]`
  models both a keyless table and a failed introspection query. -/
  pkColumns : List String
  /-- rows of the table (returned by `get_all_data` when the scan works). -/
  rows : List Row
  /-- `get_all_data` catches every exception and returns an empty DataFrame. -/
  scanFails : Bool
  /-- `CHANGE_TRACKING_CURRENT_VERSION()`; the code returns `0` when the query
  fails, so `0` doubles as the failure sentinel downstream. -/
  currentVersion : Nat
  /-- rows returned by the CHANGETABLE upsert query for this pass. -/
  changedRows : List Row
  /-- primary-key rows returned by the CHANGETABLE delete query. -/
  deletedKeys : List Row
  /-- the try/except around the two CHANGETABLE queries in `get_changed_data`. -/
  changeQueryFails : Bool
deriving DecidableEq, Repr

/-- Failure flags for the target (BigQuery) and checkpoint-file side. -/
structure Env where
  /-- `BigQueryConnection.create_table` returns `False` on exception. -/
  createFails : Bool
  /-- `BigQueryConnection.load_dataframe` returns `False` on exception. -/
  loadFails : Bool
  /-- `BigQueryConnection.delete_rows` returns `False` on exception. -/
  deleteFails : Bool
  /-- the `open(...,'w')`/`json.dump` in `StateManager._save_state` raising. -/
  writeFails : Bool
deriving DecidableEq, Repr

/-- `StateManager`: `memory` is `self.state` (the in-process dict), `file` is
the JSON document on disk.  Only `last_sync_version` is modelled; the
`last_sync_time` timestamp never influences control flow. -/
structure SM where
  memory : List (String × Nat)
  file : List (String × Nat)
deriving DecidableEq, Repr

/-- Dictionary lookup with the `.get(table_name, {})` / `.get(key, 0)` default
of `StateManager.get_last_sync_version`. -/
def lookupV (l : List (String × Nat)) (t : String) : Nat :=
  match l.lookup t with
  | some v => v
  | none => 0

/-- Dictionary update `self.state[table_name]['last_sync_version'] = version`
(front insertion; `lookupV` reads the newest binding). -/
def setV (l : List (String × Nat)) (t : String) (v : Nat) : List (String × Nat) :=
  (t, v) :: l

/-- `StateManager._load_state`: `none` = state file absent, `some none` =
present but unreadable/unparseable (the caught-exception path, which logs and
returns `{}`), `some (some s)` = parsed content. -/
def load_state (fileContent : Option (Option (List (String × Nat)))) :
    List (String × Nat) :=
  match fileContent with
  | none => []
  | some none => []
  | some (some s) => s

/-- `StateManager.__init__`: the file is read once; the in-memory dict starts
as whatever was loaded. -/
def SM.init (fileContent : Option (Option (List (String × Nat)))) : SM :=
  { memory := load_state fileContent, file := load_state fileContent }

/-- `StateManager._save_state`: rewrites the file in full from memory; on
exception it logs the error and returns normally, leaving the file as it was.
No failure is ever reported to the caller. -/
def save_state (env : Env) (sm : SM) : SM :=
  if env.writeFails then sm else { sm with file := sm.memory }

/-- `StateManager.get_last_sync_version` (reads the in-memory dict). -/
def get_last_sync_version (sm : SM) (t : String) : Nat :=
  lookupV sm.memory t

/-- `StateManager.update_sync_version`: update memory, then `_save_state`;
always returns normally. -/
def update_sync_version (env : Env) (sm : SM) (t : String) (v : Nat) : SM :=
  save_state env { sm with memory := setV sm.memory t v }

/-- `SQLServerConnection.get_all_data`: catches every exception (returning an
empty DataFrame); otherwise returns the table's rows, paged either by primary
key or by offset. -/
def get_all_data (src : Source) : List Row :=
  if src.scanFails then [] else src.rows

/-- `SQLServerConnection.get_changed_data(table, last_sync_version)` returning
(changed rows, deleted keys, current version); `(.., .., 0)` is the code's
failure return. -/
def get_changed_data (src : Source) (last : Nat) : List Row × List Row × Nat :=
  if src.ctEnabled = false then ([], [], 0)
  else if src.currentVersion ≤ last then ([], [], src.currentVersion)
  else if src.pkColumns = [] then ([], [], 0)
  else if src.changeQueryFails then ([], [], 0)
  else (src.changedRows, src.deletedKeys, src.currentVersion)

/-- The primary-key marking loop in `Replicator.replicate_table`:
`for col in schema: if col['name'] in pk_columns: col['is_primary_key'] = True`. -/
def markPrimaryKeys (schema : List Column) (pks : List String) : List Column :=
  schema.map fun c =>
    if pks.contains c.name then { c with is_primary_key := true } else c

/-- The clustering-hint computation in `BigQueryConnection.create_table`:
`pk_columns = [col['name'] for col in schema_columns if col.get('is_primary_key')]`
(iterating `schema_columns` in its own order), then `pk_columns[:4]` if
non-empty, else no clustering. -/
def create_table_clustering (schema_columns : List Column) : Option (List String) :=
  let pk := (schema_columns.filter (fun c => c.is_primary_key)).map (fun c => c.name)
  if pk = [] then none else some (pk.take 4)

/-- Observable operations performed during one `replicate_table` call.  The
load/delete actions carry the number of rows handled; `fetchChanges` carries
the watermark passed to `get_changed_data`; `checkpoint` carries the version
handed to `update_sync_version`. -/
inductive Action where
  | createTable : String → Action
  | fullScan : String → Action
  | loadReplace : String → Nat → Action
  | loadAppend : String → Nat → Action
  | deleteRows : String → Nat → Action
  | fetchChanges : String → Nat → Action
  | checkpoint : String → Nat → Action
deriving DecidableEq, Repr

/-- Mutable world state seen by `Replicator`: the set of tables existing in
BigQuery (`table_exists`) and the `StateManager` state. -/
structure RepState where
  bqTables : List String
  sm : SM
deriving DecidableEq, Repr

/-- `Replicator.replicate_table(table_name)`: returns the boolean result, the
updated world state, and the trace of operations performed.  Mirrors
src/connector/replicator.py lines 47-119 branch by branch. -/
def replicate_table (src : Source) (env : Env) (st : RepState) (t : String) :
    Bool × RepState × List Action :=
  if src.ctEnabled = false then (false, st, [])
  else if src.schema = [] then (false, st, [])
  else if st.bqTables.contains t = false then
    -- initial-load branch (target table does not exist)
    if env.createFails then (false, st, [Action.createTable t])
    else
      let st1 : RepState := { st with bqTables := t :: st.bqTables }
      let df := get_all_data src
      if df = [] then
        -- `df.empty` only logs a warning; the pass continues and succeeds
        let v := src.currentVersion
        (true, { st1 with sm := update_sync_version env st1.sm t v },
          [Action.createTable t, Action.fullScan t, Action.checkpoint t v])
      else if env.loadFails then
        (false, st1, [Action.createTable t, Action.fullScan t])
      else
        let v := src.currentVersion
        (true, { st1 with sm := update_sync_version env st1.sm t v },
          [Action.createTable t, Action.fullScan t,
           Action.loadReplace t df.length, Action.checkpoint t v])
  else
    -- incremental branch (target table exists)
    let last := get_last_sync_version st.sm t
    let res := get_changed_data src last
    let changed := res.1
    let deleted := res.2.1
    let v := res.2.2
    if v = 0 then (false, st, [Action.fetchChanges t last])
    else if changed = [] then
      if deleted = [] then
        (true, { st with sm := update_sync_version env st.sm t v },
          [Action.fetchChanges t last, Action.checkpoint t v])
      else if env.deleteFails then (false, st, [Action.fetchChanges t last])
      else
        (true, { st with sm := update_sync_version env st.sm t v },
          [Action.fetchChanges t last, Action.deleteRows t deleted.length,
           Action.checkpoint t v])
    else if env.loadFails then (false, st, [Action.fetchChanges t last])
    else if deleted = [] then
      (true, { st with sm := update_sync_version env st.sm t v },
        [Action.fetchChanges t last, Action.loadAppend t changed.length,
         Action.checkpoint t v])
    else if env.deleteFails then
      (false, st, [Action.fetchChanges t last, Action.loadAppend t changed.length])
    else
      (true, { st with sm := update_sync_version env st.sm t v },
        [Action.fetchChanges t last, Action.loadAppend t changed.length,
         Action.deleteRows t deleted.length, Action.checkpoint t v])

/-- Successive process invocations for one table: each run sees its own source
snapshot and failure environment, and the world state persists across runs.
Returns the final state and the concatenated trace. -/
def runAll (t : String) : List (Source × Env) → RepState → RepState × List Action
  | [], st => (st, [])
  | (src, env) :: rest, st =>
    let r := replicate_table src env st t
    let f := runAll t rest r.2.1
    (f.1, r.2.2 ++ f.2)

/-- The checkpoint versions written for table `t`, in trace order. -/
def checkpointVersions (t : String) (tr : List Action) : List Nat :=
  tr.filterMap fun a =>
    match a with
    | Action.checkpoint t2 v => if t2 = t then some v else none
    | _ => none

/-! ### Keyed pager (`SQLServerConnection._get_all_data_with_pk`)

The table is modelled as its list of primary-key values in ascending order
(the batch queries all say `ORDER BY {pk_column}`), so the batch query
`SELECT TOP {batch_size} * FROM t [WHERE pk > ?] ORDER BY pk` is a take of a
filtered suffix. -/

/-- One batch query of the keyed pager. -/
def pkBatchQuery (rows : List Nat) (batchSize : Nat) (last : Option Nat) :
    List Nat :=
  match last with
  | none => rows.take batchSize
  | some v => (rows.filter (fun x => decide (v < x))).take batchSize

/-- The `while True` loop of `_get_all_data_with_pk`: returns the list of
fetched batches and the number of batch queries issued.  The code breaks
before appending when a batch is empty, and after appending when a batch is
short; `last_pk_value` becomes the last row's key.  Fuel bounds the recursion;
`rows.length + 1` iterations always suffice. -/
def getAllWithPkLoop (rows : List Nat) (batchSize : Nat) :
    Nat → Option Nat → List (List Nat) × Nat
  | 0, _ => ([], 0)
  | fuel + 1, last =>
    let batch := pkBatchQuery rows batchSize last
    if batch = [] then ([], 1)
    else if batch.length < batchSize then ([batch], 1)
    else
      let r := getAllWithPkLoop rows batchSize fuel (some (batch.getLastD 0))
      (batch :: r.1, r.2 + 1)

/-- `_get_all_data_with_pk(table, pk_column, batch_size, total_rows)` for a
table whose ascending primary-key values are `rows`. -/
def get_all_data_with_pk (rows : List Nat) (batchSize : Nat) :
    List (List Nat) × Nat :=
  getAllWithPkLoop rows batchSize (rows.length + 1) none

/-- Reference chunking of a list into consecutive batches, used to
characterise the pager's output. -/
def batchesOf (b : Nat) : Nat → List Nat → List (List Nat)
  | 0, _ => []
  | fuel + 1, l =>
    if l = [] then []
    else if l.length < b then [l]
    else l.take b :: batchesOf b fuel (l.drop b)

/-- Lengths of the consecutive batches of an `n`-element table under batch
size `b` (arithmetic only). -/
def batchLengths (b : Nat) : Nat → Nat → List Nat
  | 0, _ => []
  | fuel + 1, n => if n = 0 then [] else if n < b then [n] else b :: batchLengths b fuel (n - b)

/-- Number of batch queries the pager loop issues for an `n`-element table
under batch size `b`: one extra query when the table is empty or its size is
an exact multiple of `b` (the loop only stops early on a short batch). -/
def batchCount (b : Nat) : Nat → Nat → Nat
  | 0, _ => 0
  | fuel + 1, n => if n = 0 then 1 else if n < b then 1 else batchCount b fuel (n - b) + 1

/-- The cursor predicate of the pager: which rows are still ahead of the
cursor. -/
def vPred : Option Nat → Nat → Bool
  | none => fun _ => true
  | some w => fun x => decide (w < x)

/-! ### Entry point (`src/main.py`) -/

/-- Python's `str.split(',')` on the character list: splitting at every
comma, keeping empty fields, with `''.split(',') == ['']` (the list always
has at least one — possibly empty — field). -/
def splitComma : List Char → List (List Char)
  | [] => [[]]
  | c :: rest =>
    if c = ',' then [] :: splitComma rest
    else
      match splitComma rest with
      | [] => [[c]]
      | g :: gs => (c :: g) :: gs

/-- `os.getenv('TABLES_TO_REPLICATE', '').split(',')`. -/
def tablesFromEnv (envVar : Option String) : List String :=
  (splitComma (envVar.getD "").toList).map fun cs => String.mk cs

/-- Python's `str.strip()` (restricted to the space character, the only
whitespace occurring in this model). -/
def pyStrip (s : String) : String :=
  String.mk (((s.toList.dropWhile (fun c => c = ' ')).reverse.dropWhile
    (fun c => c = ' ')).reverse)

/-- Python falsiness of an optional environment string: `None` or `''`. -/
def envMissing (o : Option String) : Bool :=
  o.getD "" = ""

/-- `Replicator.replicate_all_tables`, parametric in the per-table outcome
`res`: empty names (after `strip()`) are skipped, and overall success is the
conjunction over the rest. -/
def replicate_all_tables (res : String → Bool) (tables : List String) : Bool :=
  tables.foldl
    (fun acc name => if pyStrip name = "" then acc else acc && res (pyStrip name))
    true

/-- Configuration surface read by `main()`. -/
structure MainCfg where
  sqlServer : Option String
  sqlDatabase : Option String
  bqProject : Option String
  bqDataset : Option String
  tablesEnv : Option String

/-- `main()` in src/main.py, returning (exit code, whether
`Replicator.initialize()` — the connection attempt — was reached).  `initOk`
models whether both connections succeed; `res` models per-table replication
outcomes. -/
def main_model (cfg : MainCfg) (initOk : Bool) (res : String → Bool) :
    Nat × Bool :=
  if envMissing cfg.sqlServer || envMissing cfg.sqlDatabase then (1, false)
  else if envMissing cfg.bqProject || envMissing cfg.bqDataset then (1, false)
  else if tablesFromEnv cfg.tablesEnv = [] then (1, false)
  else if initOk = false then (1, true)
  else if replicate_all_tables res (tablesFromEnv cfg.tablesEnv) then (0, true)
  else (1, true)

/-- Spec-level description of the clustering hints after amendment: the
primary-key columns that occur in the schema, taken in SOURCE COLUMN order,
capped at four; none when no column is a key.  Defined independently of
`create_table_clustering` for comparison. -/
def spec_clustering_column_order (schema : List Column) (pks : List String) :
    Option (List String) :=
  let pkCols := (schema.filter (fun c => pks.contains c.name)).map (fun c => c.name)
  if pkCols = [] then none else some (pkCols.take 4)

/-! ### Concrete fixtures for counterexamples and witnesses -/

/-- An integer `id` column. -/
def colId : Column := { name := "id", type := "int", is_nullable := false }

/-- Column `a`, declared before `b` in the source table. -/
def colA : Column := { name := "a", type := "int", is_nullable := false }

/-- Column `b`, declared after `a` in the source table. -/
def colB : Column := { name := "b", type := "int", is_nullable := false }

/-- A sample row. -/
def rowA : Row := [("id", 1)]

/-- Environment in which every target-side operation succeeds. -/
def envOK : Env :=
  { createFails := false, loadFails := false, deleteFails := false, writeFails := false }

/-- A healthy source table with one row, parameterised by the feed's current
version and the pending changes. -/
def srcWith (v : Nat) (changed deleted : List Row) : Source :=
  { ctEnabled := true, schema := [colId], pkColumns := ["id"], rows := [rowA],
    scanFails := false, currentVersion := v, changedRows := changed,
    deletedKeys := deleted, changeQueryFails := false }

/-- A change-tracked source whose primary-key introspection returns nothing. -/
def srcNoPk (v : Nat) : Source :=
  { ctEnabled := true, schema := [colId], pkColumns := [], rows := [rowA],
    scanFails := false, currentVersion := v, changedRows := [],
    deletedKeys := [], changeQueryFails := false }

/-- Fresh world: no BigQuery tables, empty state file. -/
def st0 : RepState := { bqTables := [], sm := { memory := [], file := [] } }

/-- World in which table `t` exists in BigQuery and the stored watermark is
`w`. -/
def stWith (t : String) (w : Nat) : RepState :=
  { bqTables := [t], sm := { memory := [(t, w)], file := [(t, w)] } }

/-- `main()` configuration with all connection parameters present and the
table list environment variable empty. -/
def cfgEmptyTables : MainCfg :=
  { sqlServer := some "srv", sqlDatabase := some "db", bqProject := some "proj",
    bqDataset := some "ds", tablesEnv := some "" }

/-! ## Theorems -/

/-! ### Pager characterisation (helper lemmas) -/

theorem getLastD_mem_of_ne_nil (l : List Nat) (d : Nat) (h : l ≠ []) : l.getLastD d ∈ l := by
  induction l generalizing d with
  | nil => exact absurd rfl h
  | cons a t ih =>
    cases t with
    | nil => simp
    | cons a2 t2 =>
      rw [List.getLastD_cons d a (a2 :: t2)]
      exact List.mem_cons_of_mem _ (ih a (by simp))

theorem getLastD_default_irrel (l : List Nat) (d d2 : Nat) (h : l ≠ []) :
    l.getLastD d = l.getLastD d2 := by
  cases l with
  | nil => exact absurd rfl h
  | cons a t =>
    cases t with
    | nil => rfl
    | cons a2 t2 =>
      rw [List.getLastD_cons d a (a2 :: t2), List.getLastD_cons d2 a (a2 :: t2)]

theorem filter_gt_takeLast (l : List Nat) (hs : l.Sorted (· < ·)) :
    ∀ n, 0 < n → n ≤ l.length →
      l.filter (fun y => decide ((l.take n).getLastD 0 < y)) = l.drop n := by
  induction l with
  | nil => intro n _ h2; simp at h2; omega
  | cons x xs ih =>
    intro n hn hlen
    have hx : ∀ y ∈ xs, x < y := fun y hy => (List.sorted_cons.mp hs).1 y hy
    have hsx : xs.Sorted (· < ·) := (List.sorted_cons.mp hs).2
    match n, hn with
    | 1, _ =>
      show List.filter (fun y => decide (x < y)) (x :: xs) = xs
      rw [List.filter_cons]
      simp only [lt_irrefl, decide_False, Bool.false_eq_true, if_false]
      exact List.filter_eq_self.mpr fun y hy => decide_eq_true (hx y hy)
    | (m+2), _ =>
      have hlen2 : m + 1 ≤ xs.length := by simpa using hlen
      have htk : xs.take (m+1) ≠ [] := by
        intro hemp
        rcases List.take_eq_nil_iff.mp hemp with h | h
        · omega
        · subst h; simp at hlen2
      have hstep : ((x :: xs).take (m+2)).getLastD 0 = (xs.take (m+1)).getLastD 0 := by
        show ((x :: xs.take (m+1))).getLastD 0 = (xs.take (m+1)).getLastD 0
        rw [List.getLastD_cons 0 x (xs.take (m+1))]
        exact getLastD_default_irrel _ x 0 htk
      rw [hstep]
      have hw : (xs.take (m+1)).getLastD 0 ∈ xs :=
        List.take_subset _ _ (getLastD_mem_of_ne_nil _ 0 htk)
      have hxw : x < (xs.take (m+1)).getLastD 0 := hx _ hw
      rw [List.filter_cons]
      have : (decide ((xs.take (m+1)).getLastD 0 < x)) = false := by
        simp only [decide_eq_false_iff_not]
        omega
      rw [this]
      simp only [Bool.false_eq_true, if_false]
      show _ = (x :: xs).drop (m + 2)
      have : (x :: xs).drop (m+2) = xs.drop (m+1) := rfl
      rw [this]
      exact ih hsx (m+1) (Nat.succ_pos m) hlen2

theorem loopAux (rows : List Nat) (b : Nat) (hb : 0 < b) (hs : rows.Sorted (· < ·)) :
    ∀ (fuel : Nat) (v : Option Nat), (rows.filter (vPred v)).length < fuel →
      getAllWithPkLoop rows b fuel v
        = (batchesOf b fuel (rows.filter (vPred v)),
           batchCount b fuel (rows.filter (vPred v)).length) := by
  intro fuel
  induction fuel with
  | zero => intro v h; omega
  | succ fuel ih =>
    intro v hfuel
    have hbatch : pkBatchQuery rows b v = (rows.filter (vPred v)).take b := by
      cases v with
      | none => simp [pkBatchQuery, vPred]
      | some w => rfl
    have hsufsorted : (rows.filter (vPred v)).Sorted (· < ·) := hs.filter _
    by_cases hemp : rows.filter (vPred v) = []
    · rw [getAllWithPkLoop]
      simp only [hbatch, hemp, List.take_nil, if_true]
      rw [batchesOf, batchCount]
      simp [hemp]
    · by_cases hshort : (rows.filter (vPred v)).length < b
      · have htake : (rows.filter (vPred v)).take b = rows.filter (vPred v) :=
          List.take_of_length_le (le_of_lt hshort)
        rw [getAllWithPkLoop]
        simp only [hbatch, htake]
        rw [if_neg hemp, if_pos hshort]
        rw [batchesOf, batchCount]
        rw [if_neg hemp, if_pos hshort,
          if_neg (by simpa [List.length_eq_zero] using hemp), if_pos hshort]
      · push_neg at hshort
        have htklen : ((rows.filter (vPred v)).take b).length = b := by
          rw [List.length_take]; omega
        have hne : (rows.filter (vPred v)).take b ≠ [] := by
          intro h
          have := congrArg List.length h
          rw [htklen] at this
          simp at this
          omega
        -- the value used as the next cursor
        have hwmem : ((rows.filter (vPred v)).take b).getLastD 0 ∈ rows.filter (vPred v) :=
          List.take_subset _ _ (getLastD_mem_of_ne_nil _ 0 hne)
        have hvw : vPred v (((rows.filter (vPred v)).take b).getLastD 0) = true :=
          (List.mem_filter.mp hwmem).2
        have hcore : (rows.filter (vPred v)).filter
              (fun y => decide (((rows.filter (vPred v)).take b).getLastD 0 < y))
            = (rows.filter (vPred v)).drop b :=
          filter_gt_takeLast _ hsufsorted b hb hshort
        have hinv : rows.filter
              (vPred (some (((rows.filter (vPred v)).take b).getLastD 0)))
            = (rows.filter (vPred v)).drop b := by
          rw [← hcore, List.filter_filter]
          apply List.filter_congr
          intro a _
          show decide (((rows.filter (vPred v)).take b).getLastD 0 < a)
              = (decide (((rows.filter (vPred v)).take b).getLastD 0 < a) && vPred v a)
          by_cases h : ((rows.filter (vPred v)).take b).getLastD 0 < a
          · have hva : vPred v a = true := by
              cases v with
              | none => rfl
              | some w =>
                exact decide_eq_true (lt_trans (of_decide_eq_true hvw) h)
            rw [hva, Bool.and_true]
          · rw [decide_eq_false h, Bool.false_and]
        rw [getAllWithPkLoop]
        simp only [hbatch]
        rw [if_neg hne, if_neg (by omega : ¬ ((rows.filter (vPred v)).take b).length < b)]
        have hrec := ih (some (((rows.filter (vPred v)).take b).getLastD 0))
          (by rw [hinv, List.length_drop]; omega)
        rw [hrec, hinv]
        rw [batchesOf, batchCount]
        rw [if_neg hemp, if_neg (by omega : ¬ (rows.filter (vPred v)).length < b),
          if_neg (by simpa [List.length_eq_zero] using hemp),
          if_neg (by omega : ¬ (rows.filter (vPred v)).length < b)]
        rw [List.length_drop]

theorem batchesOf_flatten (b : Nat) (hb : 0 < b) :
    ∀ (fuel : Nat) (l : List Nat), l.length < fuel → (batchesOf b fuel l).flatten = l := by
  intro fuel
  induction fuel with
  | zero => intro l h; omega
  | succ fuel ih =>
    intro l h
    rw [batchesOf]
    by_cases hemp : l = []
    · simp [hemp]
    · by_cases hshort : l.length < b
      · rw [if_neg hemp, if_pos hshort]; simp
      · rw [if_neg hemp, if_neg hshort]
        rw [List.flatten_cons]
        rw [ih (l.drop b) (by rw [List.length_drop]; omega)]
        exact List.take_append_drop b l

theorem batchesOf_lengths (b : Nat) (hb : 0 < b) :
    ∀ (fuel : Nat) (l : List Nat), l.length < fuel →
      (batchesOf b fuel l).map List.length = batchLengths b fuel l.length := by
  intro fuel
  induction fuel with
  | zero => intro l h; omega
  | succ fuel ih =>
    intro l h
    rw [batchesOf, batchLengths]
    by_cases hemp : l = []
    · simp [hemp]
    · by_cases hshort : l.length < b
      · rw [if_neg hemp, if_pos hshort,
          if_neg (by simpa [List.length_eq_zero] using hemp), if_pos hshort]
        simp
      · rw [if_neg hemp, if_neg hshort,
          if_neg (by simpa [List.length_eq_zero] using hemp), if_neg hshort]
        rw [List.map_cons]
        rw [ih (l.drop b) (by rw [List.length_drop]; omega)]
        rw [List.length_take, List.length_drop]
        congr 1
        omega

theorem get_all_data_with_pk_spec (rows : List Nat) (b : Nat) (hb : 0 < b)
    (hs : rows.Sorted (· < ·)) :
    (get_all_data_with_pk rows b).1.map List.length
        = batchLengths b (rows.length + 1) rows.length
    ∧ (get_all_data_with_pk rows b).1.flatten = rows
    ∧ (get_all_data_with_pk rows b).2 = batchCount b (rows.length + 1) rows.length := by
  have hfilter : rows.filter (vPred none) = rows := by simp [vPred]
  have h := loopAux rows b hb hs (rows.length + 1) none (by rw [hfilter]; omega)
  rw [hfilter] at h
  unfold get_all_data_with_pk
  rw [h]
  refine ⟨batchesOf_lengths b hb _ _ (by omega), batchesOf_flatten b hb _ _ (by omega), rfl⟩

/-! ### C10 -/

/-- Claim C10: if the checkpoint state file exists but cannot be read or
parsed at startup, `StateManager` silently initialises with an empty state,
so `get_last_sync_version` returns 0 for every table: a corrupted checkpoint
file resets all watermarks to 0 (full replay) rather than failing the run. -/
theorem c10_corrupt_state_resets (t : String) :
    load_state (some none) = [] ∧
    get_last_sync_version (SM.init (some none)) t = 0 :=
  ⟨rfl, rfl⟩

/-! ### C3 -/

/-- Claim C3 counterexample: with change tracking enabled, a single-column
primary key and feed current version 40, `get_changed_data` called with
watermark 50 returns the non-error ChangeSet `([], [], 40)`, whose new
version 40 is smaller than the watermark 50 used to request it. -/
theorem c3_counterexample :
    get_changed_data (srcWith 40 [] []) 50 = ([], [], 40) ∧
    ¬ 50 ≤ (get_changed_data (srcWith 40 [] []) 50).2.2 := by
  decide

/-- Claim C3 amended: for every table and watermark, a `get_changed_data`
call on a change-tracked, keyed table whose CHANGETABLE queries succeed
reports `newVersion ≥ sinceVersion` PROVIDED the feed's current version is at
least the watermark; when the watermark exceeds the feed version, the code
returns the feed version itself, which is smaller. -/
theorem c3_amended (src : Source) (last : Nat) (hct : src.ctEnabled = true)
    (hpk : src.pkColumns ≠ []) (hqf : src.changeQueryFails = false)
    (hle : last ≤ src.currentVersion) :
    last ≤ (get_changed_data src last).2.2 := by
  unfold get_changed_data
  rw [hct, hqf]
  split_ifs with h1 h2 h3 h4 <;> simp_all

/-- Witness for `c3_amended` at a concrete input. -/
theorem c3_amended_witness :
    (40 : Nat) ≤ (get_changed_data (srcWith 40 [] []) 40).2.2 :=
  c3_amended (srcWith 40 [] []) 40 (by decide) (by decide) (by decide) (by decide)

/-! ### C4 -/

/-- Claim C4 counterexample: a change-tracked table whose primary-key
introspection returns no columns, with feed current version 50 equal to the
stored watermark 50, is NOT refused: `get_changed_data` returns the no-op
ChangeSet `([], [], 50)` without ever checking the primary key, and the
incremental pass reports success for the table. -/
theorem c4_counterexample :
    get_changed_data (srcNoPk 50) 50 = ([], [], 50) ∧
    (replicate_table (srcNoPk 50) envOK (stWith "users" 50) "users").1 = true := by
  decide

/-- Claim C4 amended: on a change-tracked table whose primary-key
introspection returns no columns, the missing-primary-key refusal happens
only when the feed's current version exceeds the watermark: in that case
`get_changed_data` returns the failure sentinel `([], [], 0)` and the
incremental pass reports failure for the table.  When the current version is
at most the watermark the primary key is never inspected: for a current
version of at least 1 the call returns the empty no-op ChangeSet and the
table is counted as succeeded, while for current version 0 the returned
triple collides with the failure sentinel and the table is counted as failed
(still with no primary-key refusal involved). -/
theorem c4_amended (src : Source) (env : Env) (st : RepState) (t : String)
    (hct : src.ctEnabled = true) (hschema : src.schema ≠ [])
    (hmem : st.bqTables.contains t = true) (hpk : src.pkColumns = []) :
    (get_last_sync_version st.sm t < src.currentVersion →
      get_changed_data src (get_last_sync_version st.sm t) = ([], [], 0) ∧
      (replicate_table src env st t).1 = false) ∧
    (src.currentVersion ≤ get_last_sync_version st.sm t →
      1 ≤ src.currentVersion →
      get_changed_data src (get_last_sync_version st.sm t)
          = ([], [], src.currentVersion) ∧
      (replicate_table src env st t).1 = true) ∧
    (src.currentVersion = 0 →
      get_changed_data src (get_last_sync_version st.sm t) = ([], [], 0) ∧
      (replicate_table src env st t).1 = false) := by
  refine ⟨?_, ?_, ?_⟩
  · intro hlt
    have hfetch : get_changed_data src (get_last_sync_version st.sm t) = ([], [], 0) := by
      unfold get_changed_data
      rw [hct, hpk]
      split_ifs with h1 h2 <;> simp_all <;> omega
    refine ⟨hfetch, ?_⟩
    unfold replicate_table
    rw [hct, hmem]
    simp only [Bool.true_eq_false, if_false, hfetch]
    rw [if_neg (by simpa using hschema)]
    simp
  · intro hle hpos
    have hfetch : get_changed_data src (get_last_sync_version st.sm t)
        = ([], [], src.currentVersion) := by
      unfold get_changed_data
      rw [hct]
      simp only [Bool.true_eq_false, if_false]
      rw [if_pos hle]
    refine ⟨hfetch, ?_⟩
    unfold replicate_table
    rw [hct, hmem]
    simp only [Bool.true_eq_false, if_false, hfetch]
    rw [if_neg (by simpa using hschema)]
    simp only [if_true, Bool.false_eq_true]
    rw [if_neg (by omega : ¬ src.currentVersion = 0)]
  · intro h0
    have hfetch : get_changed_data src (get_last_sync_version st.sm t) = ([], [], 0) := by
      unfold get_changed_data
      rw [hct]
      simp only [Bool.true_eq_false, if_false]
      rw [if_pos (by omega : src.currentVersion ≤ get_last_sync_version st.sm t), h0]
    refine ⟨hfetch, ?_⟩
    unfold replicate_table
    rw [hct, hmem]
    simp only [Bool.true_eq_false, if_false, hfetch]
    rw [if_neg (by simpa using hschema)]
    simp

/-- Witness for `c4_amended`, exercising the refusal direction (feed version
60 above watermark 50), the no-op success direction (feed version 50 equal to
the watermark) and the version-0 sentinel direction on concrete inputs. -/
theorem c4_amended_witness :
    (get_changed_data (srcNoPk 60) (get_last_sync_version (stWith "users" 50).sm "users")
        = ([], [], 0) ∧
      (replicate_table (srcNoPk 60) envOK (stWith "users" 50) "users").1 = false) ∧
    (get_changed_data (srcNoPk 50) (get_last_sync_version (stWith "users" 50).sm "users")
        = ([], [], 50) ∧
      (replicate_table (srcNoPk 50) envOK (stWith "users" 50) "users").1 = true) ∧
    (get_changed_data (srcNoPk 0) (get_last_sync_version (stWith "users" 50).sm "users")
        = ([], [], 0) ∧
      (replicate_table (srcNoPk 0) envOK (stWith "users" 50) "users").1 = false) :=
  ⟨(c4_amended (srcNoPk 60) envOK (stWith "users" 50) "users"
      (by decide) (by decide) (by decide) (by decide)).1 (by decide),
   (c4_amended (srcNoPk 50) envOK (stWith "users" 50) "users"
      (by decide) (by decide) (by decide) (by decide)).2.1 (by decide) (by decide),
   (c4_amended (srcNoPk 0) envOK (stWith "users" 50) "users"
      (by decide) (by decide) (by decide) (by decide)).2.2 (by decide)⟩

/-! ### C5 -/

/-- Claim C5 counterexample: when the feed's current version V = 0 equals the
stored watermark 0 (fresh change tracking, e.g. after a lost or corrupt state
file while the target table already exists), `get_changed_data` returns
`([], [], 0)` and the replicator treats the 0 as its failure sentinel: the
pass reports FAILURE for the table, not success as the claim states. -/
theorem c5_counterexample :
    get_changed_data (srcWith 0 [] []) (get_last_sync_version (stWith "orders" 0).sm "orders")
        = ([], [], 0) ∧
    (replicate_table (srcWith 0 [] []) envOK (stWith "orders" 0) "orders").1 = false := by
  decide

/-- Claim C5 amended: for every table whose feed current version V equals the
stored watermark AND is at least 1, the incremental pass gets the empty
ChangeSet `([], [], V)`, performs no append loads and no deletes, rewrites the
checkpoint (in memory and on file) with the same version V, and reports
success; for V = 0 the pass is reported as failed instead. -/
theorem c5_amended (src : Source) (env : Env) (st : RepState) (t : String)
    (hct : src.ctEnabled = true) (hschema : src.schema ≠ [])
    (hmem : st.bqTables.contains t = true)
    (heq : get_last_sync_version st.sm t = src.currentVersion)
    (hpos : 1 ≤ src.currentVersion) (hw : env.writeFails = false) :
    (replicate_table src env st t).1 = true ∧
    get_changed_data src (get_last_sync_version st.sm t)
        = ([], [], src.currentVersion) ∧
    (∀ n, Action.loadAppend t n ∉ (replicate_table src env st t).2.2) ∧
    (∀ n, Action.deleteRows t n ∉ (replicate_table src env st t).2.2) ∧
    get_last_sync_version (replicate_table src env st t).2.1.sm t = src.currentVersion ∧
    lookupV (replicate_table src env st t).2.1.sm.file t = src.currentVersion := by
  have hfetch : get_changed_data src (get_last_sync_version st.sm t)
      = ([], [], src.currentVersion) := by
    unfold get_changed_data
    rw [hct, heq]
    simp
  have hrun : replicate_table src env st t
      = (true, { st with sm := update_sync_version env st.sm t src.currentVersion },
         [Action.fetchChanges t (get_last_sync_version st.sm t),
          Action.checkpoint t src.currentVersion]) := by
    unfold replicate_table
    rw [hct, hmem]
    simp only [Bool.true_eq_false, if_false, hfetch]
    rw [if_neg (by simpa using hschema)]
    simp only [if_true, Bool.false_eq_true]
    rw [if_neg (by omega : ¬ src.currentVersion = 0)]
  rw [hrun]
  refine ⟨rfl, hfetch, ?_, ?_, ?_, ?_⟩
  · intro n h
    simp at h
  · intro n h
    simp at h
  · show lookupV (update_sync_version env st.sm t src.currentVersion).memory t = _
    unfold update_sync_version save_state
    rw [hw]
    simp only [Bool.false_eq_true, if_false]
    show lookupV (setV st.sm.memory t src.currentVersion) t = _
    unfold setV lookupV
    simp [List.lookup]
  · show lookupV (update_sync_version env st.sm t src.currentVersion).file t = _
    unfold update_sync_version save_state
    rw [hw]
    simp only [Bool.false_eq_true, if_false]
    show lookupV (setV st.sm.memory t src.currentVersion) t = _
    unfold setV lookupV
    simp [List.lookup]

/-- Witness for `c5_amended` at a concrete input. -/
theorem c5_amended_witness :
    (replicate_table (srcWith 50 [] []) envOK (stWith "orders" 50) "orders").1 = true ∧
    get_changed_data (srcWith 50 [] [])
        (get_last_sync_version (stWith "orders" 50).sm "orders") = ([], [], 50) ∧
    (∀ n, Action.loadAppend "orders" n ∉
      (replicate_table (srcWith 50 [] []) envOK (stWith "orders" 50) "orders").2.2) ∧
    (∀ n, Action.deleteRows "orders" n ∉
      (replicate_table (srcWith 50 [] []) envOK (stWith "orders" 50) "orders").2.2) ∧
    get_last_sync_version
      (replicate_table (srcWith 50 [] []) envOK (stWith "orders" 50) "orders").2.1.sm
      "orders" = 50 ∧
    lookupV
      (replicate_table (srcWith 50 [] []) envOK (stWith "orders" 50) "orders").2.1.sm.file
      "orders" = 50 :=
  c5_amended (srcWith 50 [] []) envOK (stWith "orders" 50) "orders"
    (by decide) (by decide) (by decide) (by decide) (by decide) (by decide)

/-! ### C6 -/

/-- Claim C6 counterexample: an incremental pass that applies 1 changed row
while the state-file write fails still returns success: `update_sync_version`
swallows the write failure (the file keeps the old watermark 10 while memory
holds 20) and the caller reports the pass as successful. -/
theorem c6_counterexample :
    (replicate_table (srcWith 20 [rowA] [])
        { envOK with writeFails := true } (stWith "orders" 10) "orders").1 = true ∧
    (replicate_table (srcWith 20 [rowA] [])
        { envOK with writeFails := true } (stWith "orders" 10) "orders").2.1.sm.file
      = [("orders", 10)] ∧
    get_last_sync_version
      (replicate_table (srcWith 20 [rowA] [])
        { envOK with writeFails := true } (stWith "orders" 10) "orders").2.1.sm
      "orders" = 20 := by
  decide

/-- Claim C6 amended: `update_sync_version` never fails loudly; when the
durable write raises, `_save_state` logs and returns normally, so the
in-memory version advances while the persisted file is left unchanged, and
the caller proceeds (and reports the pass successful) with no indication that
the state file was not written. -/
theorem c6_amended (env : Env) (sm : SM) (t : String) (v : Nat)
    (hw : env.writeFails = true) :
    (update_sync_version env sm t v).file = sm.file ∧
    get_last_sync_version (update_sync_version env sm t v) t = v := by
  unfold update_sync_version save_state
  rw [hw]
  refine ⟨rfl, ?_⟩
  show lookupV (setV sm.memory t v) t = v
  unfold setV lookupV
  simp [List.lookup]

/-- Witness for `c6_amended` at a concrete input. -/
theorem c6_amended_witness :
    (update_sync_version { envOK with writeFails := true }
        { memory := [("orders", 10)], file := [("orders", 10)] } "orders" 20).file
      = [("orders", 10)] ∧
    get_last_sync_version
      (update_sync_version { envOK with writeFails := true }
        { memory := [("orders", 10)], file := [("orders", 10)] } "orders" 20)
      "orders" = 20 :=
  c6_amended { envOK with writeFails := true }
    { memory := [("orders", 10)], file := [("orders", 10)] } "orders" 20 (by decide)

/-! ### C7 -/

/-- Claim C7 (code bug): with all connection parameters set but
`TABLES_TO_REPLICATE` empty, `os.getenv(..., '').split(',')` yields `['']`, a
non-empty (truthy) list, so the dead `if not TABLES_TO_REPLICATE` guard never
fires: `main` reaches `Replicator.initialize()` (the connection attempt), the
single empty name is stripped and skipped, `replicate_all_tables` returns
success over zero tables, and the process exits 0 — instead of aborting with
a non-zero code before any connection attempt. -/
theorem c7_code_bug :
    tablesFromEnv (some "") = [""] ∧
    tablesFromEnv (some "") ≠ [] ∧
    ∀ res : String → Bool, main_model cfgEmptyTables true res = (0, true) := by
  exact ⟨by decide, by decide, fun res => rfl⟩

/-! ### C8 -/

/-- Claim C8 counterexample: a table with columns `a, b` (in that source
order) and primary key `(b, a)` (in that key order) gets clustering hints
`["a", "b"]` — the marked schema is filtered in COLUMN order by
`create_table` — not the claimed key order `["b", "a"]`. -/
theorem c8_counterexample :
    create_table_clustering (markPrimaryKeys [colA, colB] ["b", "a"])
      = some ["a", "b"] ∧
    (["a", "b"] : List String) ≠ ["b", "a"] := by
  decide

/-- The marking pass followed by `create_table`'s comprehension selects
exactly the schema columns whose names are primary keys, in schema order. -/
theorem markPrimaryKeys_filter_names (pks : List String) :
    ∀ (schema : List Column), (∀ c ∈ schema, c.is_primary_key = false) →
      ((markPrimaryKeys schema pks).filter (fun c => c.is_primary_key)).map
          (fun c => c.name)
        = (schema.filter (fun c => pks.contains c.name)).map (fun c => c.name) := by
  intro schema
  induction schema with
  | nil => intro _; rfl
  | cons c cs ih =>
    intro hflags
    have hc : c.is_primary_key = false := hflags c (List.mem_cons_self c cs)
    have ihc := ih fun d hd => hflags d (List.mem_cons_of_mem c hd)
    unfold markPrimaryKeys at ihc ⊢
    rw [List.map_cons]
    by_cases hmem : pks.contains c.name
    · rw [if_pos hmem, List.filter_cons, List.filter_cons]
      simp only [hmem, if_true]
      rw [List.map_cons, List.map_cons]
      rw [ihc]
    · rw [if_neg hmem, List.filter_cons, List.filter_cons]
      simp only [hmem, hc, Bool.false_eq_true, if_false]
      rw [ihc]

/-- Claim C8 amended: for every schema (as fetched, with no primary-key marks
yet) and every primary-key column list, the clustering hints computed by the
replicator's marking pass plus `create_table` are the primary-key columns in
SOURCE COLUMN order, capped at four — not in primary-key position order; a
table with no matching primary-key column gets no clustering hints. -/
theorem c8_amended (schema : List Column) (pks : List String)
    (hflags : ∀ c ∈ schema, c.is_primary_key = false) :
    create_table_clustering (markPrimaryKeys schema pks)
      = spec_clustering_column_order schema pks := by
  unfold create_table_clustering spec_clustering_column_order
  rw [markPrimaryKeys_filter_names pks schema hflags]

/-- Witness for `c8_amended` at a concrete input. -/
theorem c8_amended_witness :
    create_table_clustering (markPrimaryKeys [colA, colB] ["b", "a"])
      = spec_clustering_column_order [colA, colB] ["b", "a"] :=
  c8_amended [colA, colB] ["b", "a"] (by decide)

/-! ### C9 -/

/-- Claim C9 (Scenario A): a keyed full scan of a 2,500-row table (ascending
primary keys 0..2499) with batch size 1000 issues exactly 3 batch queries
whose result sizes are 1000, 1000 and 500, returns all 2,500 rows in order,
and stops after the short third batch (no fourth query). -/
theorem c9_scenario_a :
    (get_all_data_with_pk (List.range 2500) 1000).1.map List.length
        = [1000, 1000, 500] ∧
    (get_all_data_with_pk (List.range 2500) 1000).1.flatten = List.range 2500 ∧
    (get_all_data_with_pk (List.range 2500) 1000).2 = 3 := by
  have h := get_all_data_with_pk_spec (List.range 2500) 1000 (by omega)
    (List.sorted_lt_range 2500)
  rw [List.length_range] at h
  refine ⟨?_, h.2.1, ?_⟩
  · rw [h.1]; decide
  · rw [h.2.2]; decide

/-! ### Replicator trace lemmas (helpers for C1, C2) -/

/-- The version field of a `get_changed_data` result is either the failure
sentinel 0 or the feed's current version. -/
theorem get_changed_data_version (src : Source) (last : Nat) :
    (get_changed_data src last).2.2 = 0 ∨
    (get_changed_data src last).2.2 = src.currentVersion := by
  unfold get_changed_data
  split_ifs <;> simp

/-- Once the target table exists, a `replicate_table` run never performs a
full scan of it. -/
theorem no_fullScan_of_table_exists (src : Source) (env : Env) (st : RepState)
    (t : String) (hmem : st.bqTables.contains t = true) :
    Action.fullScan t ∉ (replicate_table src env st t).2.2 := by
  unfold replicate_table
  rw [hmem]
  dsimp only
  repeat' split
  all_goals simp_all

/-- Once the target table exists, a `replicate_table` run never performs a
Replace load of it. -/
theorem no_loadReplace_of_table_exists (src : Source) (env : Env) (st : RepState)
    (t : String) (n : Nat) (hmem : st.bqTables.contains t = true) :
    Action.loadReplace t n ∉ (replicate_table src env st t).2.2 := by
  unfold replicate_table
  rw [hmem]
  dsimp only
  repeat' split
  all_goals simp_all

/-- Once the target table exists (and the run gets past the change-tracking
and schema guards), `replicate_table` takes the incremental path: it calls
`get_changed_data` with the stored watermark. -/
theorem fetchChanges_of_table_exists (src : Source) (env : Env) (st : RepState)
    (t : String) (hct : src.ctEnabled = true) (hschema : src.schema ≠ [])
    (hmem : st.bqTables.contains t = true) :
    Action.fetchChanges t (get_last_sync_version st.sm t)
      ∈ (replicate_table src env st t).2.2 := by
  unfold replicate_table
  rw [hct, hmem]
  rw [if_neg (by simp), if_neg (by simpa using hschema), if_neg (by simp)]
  dsimp only
  repeat' split
  all_goals simp_all

/-- Every checkpoint written for `t` during one `replicate_table` run on `t`
carries the feed's current version; in particular the run writes at most one
checkpoint. -/
theorem checkpointVersions_replicate_sublist (src : Source) (env : Env)
    (st : RepState) (t : String) :
    List.Sublist (checkpointVersions t (replicate_table src env st t).2.2)
      [src.currentVersion] := by
  unfold replicate_table
  dsimp only
  repeat' split
  all_goals simp only [checkpointVersions]
  all_goals simp [List.singleton_sublist]
  all_goals
    rcases get_changed_data_version src (get_last_sync_version st.sm t)
      with h0 | hv <;> simp_all

/-- The checkpoint versions written for `t` over a sequence of runs form a
sublist of the corresponding feed versions. -/
theorem checkpointVersions_runAll_sublist (t : String) :
    ∀ (runs : List (Source × Env)) (st : RepState),
      List.Sublist (checkpointVersions t (runAll t runs st).2)
        (runs.map (fun p => p.1.currentVersion)) := by
  intro runs
  induction runs with
  | nil => intro st; exact List.nil_sublist _
  | cons p rest ih =>
    intro st
    show List.Sublist
        (checkpointVersions t
          ((replicate_table p.1 p.2 st t).2.2 ++ (runAll t rest (replicate_table p.1 p.2 st t).2.1).2))
        (p.1.currentVersion :: rest.map (fun q => q.1.currentVersion))
    rw [checkpointVersions, List.filterMap_append]
    exact List.Sublist.append
      (checkpointVersions_replicate_sublist p.1 p.2 st t)
      (ih (replicate_table p.1 p.2 st t).2.1)

/-! ### C1 -/

/-- Claim C1 counterexample: run 1 on a fresh table passes the change-tracking
and schema checks, creates the target table, scans 1 row, and fails the
Replace load; run 2 (everything healthy) then does NOT retry the InitialLoad
path — no full scan, no Replace load — but takes the Incremental path,
fetching changes with watermark 0. -/
theorem c1_counterexample :
    (replicate_table (srcWith 50 [] []) { envOK with loadFails := true } st0 "orders").1
      = false ∧
    Action.fullScan "orders" ∉
      (replicate_table (srcWith 55 [rowA] []) envOK
        (replicate_table (srcWith 50 [] []) { envOK with loadFails := true }
          st0 "orders").2.1 "orders").2.2 ∧
    Action.fetchChanges "orders" 0 ∈
      (replicate_table (srcWith 55 [rowA] []) envOK
        (replicate_table (srcWith 50 [] []) { envOK with loadFails := true }
          st0 "orders").2.1 "orders").2.2 := by
  decide

/-- Claim C1 amended: a failure during the initial-load pass leaves the table
on the InitialLoad retry path ONLY when it happens before target-table
creation succeeds.  When the pass fails after the target table was created
(here: the Replace load fails), the pass reports failure but the table now
exists in the target, so every later run — whatever its source snapshot and
failure environment — skips the full scan and the Replace load, and (when it
passes the change-tracking and schema guards) proceeds on the Incremental
path with watermark 0. -/
theorem c1_amended (src : Source) (env : Env) (st : RepState) (t : String)
    (hct : src.ctEnabled = true) (hschema : src.schema ≠ [])
    (hmem : st.bqTables.contains t = false) (hcreate : env.createFails = false)
    (hscan : src.scanFails = false) (hrows : src.rows ≠ [])
    (hload : env.loadFails = true) (hw : get_last_sync_version st.sm t = 0) :
    (replicate_table src env st t).1 = false ∧
    (replicate_table src env st t).2.1.bqTables.contains t = true ∧
    (∀ (src2 : Source) (env2 : Env),
      Action.fullScan t ∉
        (replicate_table src2 env2 (replicate_table src env st t).2.1 t).2.2 ∧
      (∀ n, Action.loadReplace t n ∉
        (replicate_table src2 env2 (replicate_table src env st t).2.1 t).2.2) ∧
      (src2.ctEnabled = true → src2.schema ≠ [] →
        Action.fetchChanges t 0 ∈
          (replicate_table src2 env2 (replicate_table src env st t).2.1 t).2.2)) := by
  have hdf : get_all_data src = src.rows := by
    unfold get_all_data
    rw [hscan]
    simp
  have hrun : replicate_table src env st t
      = (false, { st with bqTables := t :: st.bqTables },
         [Action.createTable t, Action.fullScan t]) := by
    unfold replicate_table
    rw [hct, hmem, hcreate, hload]
    dsimp only
    rw [if_neg (by simp), if_neg (by simpa using hschema), if_pos rfl,
      if_neg (by simp), if_neg (by rw [hdf]; exact hrows), if_pos rfl]
  rw [hrun]
  refine ⟨rfl, by simp, ?_⟩
  intro src2 env2
  have hmem2 : ({ st with bqTables := t :: st.bqTables } : RepState).bqTables.contains t
      = true := by simp
  refine ⟨no_fullScan_of_table_exists src2 env2 _ t hmem2,
    fun n => no_loadReplace_of_table_exists src2 env2 _ t n hmem2, ?_⟩
  intro hct2 hschema2
  have h0 : lookupV st.sm.memory t = 0 := hw
  have := fetchChanges_of_table_exists src2 env2
    ({ st with bqTables := t :: st.bqTables }) t hct2 hschema2 hmem2
  simpa [get_last_sync_version, h0] using this

/-- Witness for `c1_amended` at a concrete input. -/
theorem c1_amended_witness :
    (replicate_table (srcWith 50 [] []) { envOK with loadFails := true } st0 "orders").1
        = false ∧
    (replicate_table (srcWith 50 [] []) { envOK with loadFails := true }
        st0 "orders").2.1.bqTables.contains "orders" = true ∧
    (∀ (src2 : Source) (env2 : Env),
      Action.fullScan "orders" ∉
        (replicate_table src2 env2
          (replicate_table (srcWith 50 [] []) { envOK with loadFails := true }
            st0 "orders").2.1 "orders").2.2 ∧
      (∀ n, Action.loadReplace "orders" n ∉
        (replicate_table src2 env2
          (replicate_table (srcWith 50 [] []) { envOK with loadFails := true }
            st0 "orders").2.1 "orders").2.2) ∧
      (src2.ctEnabled = true → src2.schema ≠ [] →
        Action.fetchChanges "orders" 0 ∈
          (replicate_table src2 env2
            (replicate_table (srcWith 50 [] []) { envOK with loadFails := true }
              st0 "orders").2.1 "orders").2.2)) :=
  c1_amended (srcWith 50 [] []) { envOK with loadFails := true } st0 "orders"
    (by decide) (by decide) (by decide) (by decide) (by decide) (by decide)
    (by decide) (by decide)

/-! ### C2 -/

/-- Claim C2: provided the source feed's current version is non-decreasing
across the successive runs (the monotonicity the source's change-sequence
mechanism guarantees), the checkpoint versions written for any table over any
sequence of `replicate_table` runs form a non-decreasing sequence — each
`update_sync_version` call carries a version at least as large as every
version written before it. -/
theorem c2_checkpoint_monotone (t : String) (runs : List (Source × Env))
    (st : RepState)
    (hmono : List.Chain' (· ≤ ·) (runs.map (fun p => p.1.currentVersion))) :
    List.Chain' (· ≤ ·) (checkpointVersions t (runAll t runs st).2) :=
  hmono.sublist (checkpointVersions_runAll_sublist t runs st)

/-- Witness for `c2_checkpoint_monotone` on two concrete incremental runs
with feed versions 10 and 20. -/
theorem c2_checkpoint_monotone_witness :
    List.Chain' (· ≤ ·)
      (checkpointVersions "orders"
        (runAll "orders"
          [(srcWith 10 [] [], envOK), (srcWith 20 [rowA] [], envOK)]
          (stWith "orders" 5)).2) :=
  c2_checkpoint_monotone "orders"
    [(srcWith 10 [] [], envOK), (srcWith 20 [rowA] [], envOK)]
    (stWith "orders" 5) (by simp [srcWith, List.chain'_cons])

end Repl
